import Mathlib

/-!
Verification of the passphrase2pgp key-generation tool.

Bytes are modelled as `Nat` values below 256 and byte strings as `List Nat`.
Go's `byte(n)` conversion is modelled as `n % 256` and `uint32(n)` as
`n % 2^32`, mirroring Go's modular integer conversions.
-/

namespace P2P

/-! ### Key derivation (src/passphrase2pgp.go) -/

/-- Source constant `kdfTime = 8`. -/
def kdfTime : Nat := 8

/-- Source constant `kdfMemory = 1024 * 1024`. -/
def kdfMemory : Nat := 1024 * 1024

/-- The Argon2id time-cost argument computed by `kdf`: Go evaluates
`uint32(kdfTime * scale)`, i.e. the product reduced modulo `2^32`. -/
def kdfTimeArg (scale : Nat) : Nat := (kdfTime * scale) % 2 ^ 32

/-- The Argon2id memory-cost argument computed by `kdf`: Go evaluates
`uint32(kdfMemory * scale)`, i.e. the product reduced modulo `2^32`. -/
def kdfMemoryArg (scale : Nat) : Nat := (kdfMemory * scale) % 2 ^ 32

/-- Embedding of `kdf(passphrase, uid, scale)`.  The external library
primitive `argon2.IDKey(password, salt, time, memory, threads, keyLen)` is a
parameter `argon2id`; `kdf` calls it with the passphrase as password, the
user id as salt, the truncated time and memory costs, one thread, and
output length 64. -/
def kdf (argon2id : List Nat → List Nat → Nat → Nat → Nat → Nat → List Nat)
    (passphrase uid : List Nat) (scale : Nat) : List Nat :=
  argon2id passphrase uid (kdfTimeArg scale) (kdfMemoryArg scale) 1 64

/-- A probe instantiation of the Argon2id parameter that returns its
time-cost argument, used to observe which parameters `kdf` passes. -/
def probeArgon2 : List Nat → List Nat → Nat → Nat → Nat → Nat → List Nat :=
  fun _ _ time _ _ _ => [time]

/-- An Argon2id instantiation returning `keyLen` zero bytes; it honours the
library's contract that the output has exactly the requested length. -/
def constArgon2 : List Nat → List Nat → Nat → Nat → Nat → Nat → List Nat :=
  fun _ _ _ _ _ keyLen => List.replicate keyLen 0

/-! ### Seed splitting in `main` (src/passphrase2pgp.go) -/

/-- In key-generation mode `main` runs `key.Seed(seed[:32])`: the Signing
Key is seeded with the first 32 bytes of the derived seed. -/
def keygenSignSeed (seed : List Nat) : List Nat := seed.take 32

/-- In key-generation mode `main` runs `subkey.Seed(seed[32:])`: the
Encryption Subkey is seeded with the bytes of the seed from index 32 on. -/
def keygenSubkeySeed (seed : List Nat) : List Nat := seed.drop 32

/-! ### UserID (src/unnamed/part_000, package openpgp) -/

/-- A signature subpacket: a type code and its data bytes. -/
structure Subpacket where
  typ : Nat
  data : List Nat
  deriving DecidableEq, Repr

/-- `UserID` wraps the identity bytes and the `EnableMDC` flag. -/
structure UserID where
  ID : List Nat
  EnableMDC : Bool
  deriving DecidableEq, Repr

/-- Embedding of `UserID.Packet`: header byte `0xc0 | 13`, then the length
byte `byte(len(u.ID))` (the length reduced modulo 256), then the raw
identity bytes. -/
def UserID.Packet (u : UserID) : List Nat :=
  (0xc0 ||| 13) :: (u.ID.length % 256) :: u.ID

/-- Modelled from the spec: `readPacket` is part of this repository but not
among the given sources; only its caller `UserID.Load` is.  Per the spec the
packet framer decodes a header byte and a single length byte, "fails with
`FramingError` if the stream is shorter than the declared length, or if the
header byte's high bits don't match `0xC0`".  Matching the caller's use of
`packet[0]` and `packet[2:]`, it returns the consumed packet bytes (header
byte, length byte, body) together with the unread remainder of the stream. -/
def readPacket (s : List Nat) : Except String (List Nat × List Nat) :=
  match s with
  | header :: len :: rest =>
    if header &&& 0xc0 ≠ 0xc0 then .error "invalid framing"
    else if rest.length < len then .error "truncated packet"
    else .ok (header :: len :: rest.take len, rest.drop len)
  | _ => .error "truncated packet"

/-- Embedding of `UserID.Load`: reads one packet with `readPacket`, returns
the error if reading fails, fails with "invalid input" unless the first
packet byte is `0xc0 | 13`, and otherwise stores `packet[2:]` into `u.ID`.
The Go method mutates its receiver and returns an `error`; this is modelled
as returning the post-state of the receiver together with an optional
error, the receiver being returned unchanged on every error path (the Go
code assigns to `u.ID` only after all checks pass). -/
def UserID.Load (u : UserID) (s : List Nat) : UserID × Option String :=
  match readPacket s with
  | .error e => (u, some e)
  | .ok (packet, _) =>
    if packet.headD 0 ≠ 0xc0 ||| 13 then (u, some "invalid input")
    else ({ u with ID := packet.drop 2 }, none)

/-- Embedding of `UserID.SignType`. -/
def UserID.SignType (_ : UserID) : Nat := 0x13

/-- Embedding of `UserID.Subpackets`: a two-element list (key flags, then
features) of which only the first element is returned unless `EnableMDC`
is set. -/
def UserID.Subpackets (u : UserID) : List Subpacket :=
  let subpackets : List Subpacket :=
    [⟨27, [0x03]⟩, ⟨30, [0x01]⟩]
  if u.EnableMDC then subpackets else subpackets.take 1

/-- Embedding of `UserID.SignData`: the bytes `{0xb4, 0, 0, 0}` followed by
`u.Packet()[1:]` (the packet with its header byte dropped). -/
def UserID.SignData (u : UserID) : List Nat :=
  [0xb4, 0, 0, 0] ++ u.Packet.drop 1

/-- Big-endian 4-byte encoding of a number, used to state what a 4-byte
big-endian length field contains. -/
def beBytes4 (n : Nat) : List Nat :=
  [n / 2 ^ 24 % 256, n / 2 ^ 16 % 256, n / 2 ^ 8 % 256, n % 256]

/-- Streams on which `readPacket` necessarily fails as truncated: fewer
than two bytes, or fewer body bytes available than the declared length. -/
def truncatedStream (s : List Nat) : Bool :=
  match s with
  | _ :: len :: rest => rest.length < len
  | _ => true

/-! ### Concrete values used by counterexamples and witnesses -/

/-- A zero-valued `UserID` receiver, as declared by `var userid UserID` in
`main`. -/
def freshUserID : UserID := ⟨[], false⟩

/-- A `UserID` with a 256-byte identity. -/
def uLong : UserID := ⟨List.replicate 256 0, false⟩

/-- A `UserID` with a 255-byte identity. -/
def uMax : UserID := ⟨List.replicate 255 0, false⟩

/-- A `UserID` with a one-byte identity and the `EnableMDC` flag set. -/
def uMDC : UserID := ⟨[65], true⟩

/-- A `UserID` with a 256-byte identity and the `EnableMDC` flag set. -/
def uLongMDC : UserID := ⟨List.replicate 256 1, true⟩

end P2P

namespace P2P

/-! ### Theorems -/

/-- C4: for every UserID whose identity is at most 255 bytes long,
`Packet()` returns `len(u.ID) + 2` bytes: the header byte `0xc0 | 13`, a
length byte equal to `len(u.ID)`, then the raw identity bytes unchanged. -/
theorem userID_packet_spec (u : UserID) (h : u.ID.length ≤ 255) :
    u.Packet.length = u.ID.length + 2 ∧
    u.Packet.head? = some (0xc0 ||| 13) ∧
    u.Packet.get? 1 = some u.ID.length ∧
    u.Packet.drop 2 = u.ID := by
  have hm : u.ID.length % 256 = u.ID.length := Nat.mod_eq_of_lt (by omega)
  refine ⟨?_, ?_, ?_, ?_⟩ <;> simp [UserID.Packet, hm]

/-- Witness for C4 at a concrete one-byte identity. -/
theorem userID_packet_spec_witness :
    (uMDC.ID.length ≤ 255) ∧
    (uMDC.Packet.length = uMDC.ID.length + 2 ∧
     uMDC.Packet.head? = some (0xc0 ||| 13) ∧
     uMDC.Packet.get? 1 = some uMDC.ID.length ∧
     uMDC.Packet.drop 2 = uMDC.ID) :=
  ⟨by decide, userID_packet_spec uMDC (by decide)⟩

/-- C6: `Subpackets()` always has the key-flags subpacket (type 27, data
`0x03`) as its first element, contains the features subpacket (type 30,
data `0x01`) exactly when `EnableMDC` is set, and contains no other
subpacket. -/
theorem userID_subpackets_spec (u : UserID) :
    u.Subpackets.head? = some ⟨27, [0x03]⟩ ∧
    ((⟨30, [0x01]⟩ : Subpacket) ∈ u.Subpackets ↔ u.EnableMDC = true) ∧
    (∀ s ∈ u.Subpackets, s = ⟨27, [0x03]⟩ ∨ s = ⟨30, [0x01]⟩) := by
  cases hm : u.EnableMDC <;> simp [UserID.Subpackets, hm]

/-- C7: for every UserID whose identity is at most 255 bytes long,
`SignData()` is the tag byte `0xb4`, the 4-byte big-endian encoding of the
identity length, then the identity bytes; its total length is
`len(u.ID) + 5`. -/
theorem userID_signData_spec (u : UserID) (h : u.ID.length ≤ 255) :
    u.SignData = 0xb4 :: beBytes4 u.ID.length ++ u.ID ∧
    u.SignData.length = u.ID.length + 5 := by
  constructor
  · simp [UserID.SignData, UserID.Packet, beBytes4]
    omega
  · simp [UserID.SignData, UserID.Packet]

/-- Witness for C7 at a concrete one-byte identity. -/
theorem userID_signData_spec_witness :
    (uMDC.ID.length ≤ 255) ∧
    (uMDC.SignData = 0xb4 :: beBytes4 uMDC.ID.length ++ uMDC.ID ∧
     uMDC.SignData.length = uMDC.ID.length + 5) :=
  ⟨by decide, userID_signData_spec uMDC (by decide)⟩

/-- C10: `Load` leaves the `EnableMDC` field of the receiver unchanged on
every input stream, whether it succeeds or fails; only the `ID` field is
ever assigned. -/
theorem userID_load_preserves_enableMDC (u : UserID) (s : List Nat) :
    ((u.Load s).1).EnableMDC = u.EnableMDC := by
  unfold UserID.Load
  cases readPacket s with
  | error e => rfl
  | ok p =>
    simp only
    split <;> rfl

/-- C1 counterexample: the claim fails at difficulty `2^29`.  There the
time-cost argument `kdf` hands to Argon2id is `uint32(8 * 2^29) = 0`, not
`8 * 2^29 = 2^32`; observed with the probe instantiation that returns its
time-cost argument. -/
theorem kdf_params_claim_false :
    kdf probeArgon2 [] [] (2 ^ 29) = [0] ∧
    probeArgon2 [] [] (kdfTime * 2 ^ 29) (kdfMemory * 2 ^ 29) 1 64
      = [4294967296] ∧
    (0 : Nat) ≠ 4294967296 := by
  refine ⟨?_, by norm_num [probeArgon2, kdfTime], by omega⟩
  norm_num [kdf, kdfTimeArg, probeArgon2, kdfTime]

/-- C1 (amended): for every positive difficulty `d` at most 4095 — so that
neither `8 * d` nor `1048576 * d` overflows the `uint32` conversions in
the source — `kdf` returns exactly the Argon2id hash of the passphrase
with the identity bytes as the salt input, time-cost `8 * d`, memory-cost
`1048576 * d` KiB, parallelism 1 and requested output length 64, and the
seed is 64 bytes long whenever Argon2id honours its output-length
argument. -/
theorem kdf_params_spec
    (argon2id : List Nat → List Nat → Nat → Nat → Nat → Nat → List Nat)
    (passphrase uid : List Nat) (d : Nat) (hd : 0 < d) (hle : d ≤ 4095)
    (hlen : (argon2id passphrase uid (8 * d) (1048576 * d) 1 64).length = 64) :
    kdf argon2id passphrase uid d
      = argon2id passphrase uid (8 * d) (1048576 * d) 1 64 ∧
    (kdf argon2id passphrase uid d).length = 64 := by
  have h32 : (2 : Nat) ^ 32 = 4294967296 := by norm_num
  have ht : kdfTimeArg d = 8 * d := by
    unfold kdfTimeArg kdfTime
    rw [h32]
    omega
  have hm : kdfMemoryArg d = 1048576 * d := by
    unfold kdfMemoryArg kdfMemory
    rw [h32]
    omega
  have he : kdf argon2id passphrase uid d
      = argon2id passphrase uid (8 * d) (1048576 * d) 1 64 := by
    rw [kdf, ht, hm]
  exact ⟨he, by rw [he, hlen]⟩

/-- Witness for the amended C1 at difficulty 1 and a length-honouring
Argon2id instantiation. -/
theorem kdf_params_spec_witness :
    (0 < 1 ∧ 1 ≤ 4095 ∧
      (constArgon2 [] [] (8 * 1) (1048576 * 1) 1 64).length = 64) ∧
    (kdf constArgon2 [] [] 1 = constArgon2 [] [] (8 * 1) (1048576 * 1) 1 64 ∧
     (kdf constArgon2 [] [] 1).length = 64) :=
  ⟨⟨by decide, by decide, by simp [constArgon2]⟩,
   kdf_params_spec constArgon2 [] [] 1 (by decide) (by decide)
     (by simp [constArgon2])⟩

/-- C9: the key-derivation function is deterministic — in the embedding it
is a pure function of the Argon2id primitive and the three inputs
(mirroring the source, whose body is a single Argon2id call on its
arguments, with no randomness, external state or I/O), so any two
evaluations on equal inputs yield identical seeds. -/
theorem kdf_deterministic
    (argon2id : List Nat → List Nat → Nat → Nat → Nat → Nat → List Nat)
    (p1 p2 u1 u2 : List Nat) (d1 d2 : Nat)
    (hp : p1 = p2) (hu : u1 = u2) (hd : d1 = d2) :
    kdf argon2id p1 u1 d1 = kdf argon2id p2 u2 d2 := by
  rw [hp, hu, hd]

/-- Witness for C9 at concrete inputs. -/
theorem kdf_deterministic_witness :
    (([1] : List Nat) = [1] ∧ ([2] : List Nat) = [2] ∧ (1 : Nat) = 1) ∧
    kdf probeArgon2 [1] [2] 1 = kdf probeArgon2 [1] [2] 1 :=
  ⟨⟨rfl, rfl, rfl⟩, kdf_deterministic probeArgon2 [1] [1] [2] [2] 1 1 rfl rfl rfl⟩

/-- C2: when `main` generates keys from a 64-byte seed, the Signing Key
seed is exactly bytes 0..31 and the Encryption Subkey seed exactly bytes
32..63: both halves have 32 bytes, the i-th signing byte is seed byte i,
the i-th subkey byte is seed byte 32+i, and the two halves partition the
seed, so no seed byte is consumed by both keys. -/
theorem keygen_seed_split (seed : List Nat) (h : seed.length = 64) :
    (keygenSignSeed seed).length = 32 ∧
    (keygenSubkeySeed seed).length = 32 ∧
    (∀ i, i < 32 → (keygenSignSeed seed).get? i = seed.get? i) ∧
    (∀ i, i < 32 → (keygenSubkeySeed seed).get? i = seed.get? (32 + i)) ∧
    keygenSignSeed seed ++ keygenSubkeySeed seed = seed := by
  refine ⟨?_, ?_, ?_, ?_, ?_⟩
  · simp [keygenSignSeed, h]
  · simp [keygenSubkeySeed, h]
  · intro i hi
    exact List.get?_take hi
  · intro i hi
    simp [keygenSubkeySeed, List.get?_drop]
  · exact List.take_append_drop 32 seed

/-- Witness for C2 on the concrete seed `0, 1, ..., 63`. -/
theorem keygen_seed_split_witness :
    ((List.range 64).length = 64) ∧
    ((keygenSignSeed (List.range 64)).length = 32 ∧
     (keygenSubkeySeed (List.range 64)).length = 32 ∧
     (∀ i, i < 32 →
        (keygenSignSeed (List.range 64)).get? i = (List.range 64).get? i) ∧
     (∀ i, i < 32 →
        (keygenSubkeySeed (List.range 64)).get? i
          = (List.range 64).get? (32 + i)) ∧
     keygenSignSeed (List.range 64) ++ keygenSubkeySeed (List.range 64)
       = List.range 64) :=
  ⟨by simp, keygen_seed_split (List.range 64) (by simp)⟩

/-- C3 counterexample: `Packet()` has no failure path; on the 256-byte
identity `uLong` it silently emits the incorrect single-byte length
`256 % 256 = 0` instead of failing with an `EncodingError`. -/
theorem userID_packet_256_no_error :
    uLong.ID.length = 256 ∧
    uLong.Packet.get? 1 = some 0 ∧
    uLong.Packet.length = 258 ∧
    some (0 : Nat) ≠ some 256 := by
  have hlen : uLong.ID.length = 256 := List.length_replicate 256 0
  refine ⟨hlen, ?_, ?_, by simp⟩
  · simp only [UserID.Packet, List.get?]
    rw [hlen]
  · simp only [UserID.Packet, List.length_cons]
    omega

/-- C3 (amended): encoding a UserID packet whose body is exactly 255 bytes
succeeds with the correct length byte 255; encoding a 256-byte body does
not fail with an `EncodingError` — `Packet()` cannot fail and instead
silently emits the length byte `len(u.ID) % 256`, which for a 256-byte
identity is the incorrect value 0. -/
theorem userID_packet_boundary (u : UserID) :
    (u.ID.length = 255 → u.Packet = (0xc0 ||| 13) :: 255 :: u.ID) ∧
    (u.ID.length = 256 → u.Packet = (0xc0 ||| 13) :: 0 :: u.ID) := by
  constructor <;> intro h <;> simp [UserID.Packet, h]

/-- Witness for the amended C3 at the 255- and 256-byte identities. -/
theorem userID_packet_boundary_witness :
    (uMax.ID.length = 255 ∧ uMax.Packet = (0xc0 ||| 13) :: 255 :: uMax.ID) ∧
    (uLong.ID.length = 256 ∧ uLong.Packet = (0xc0 ||| 13) :: 0 :: uLong.ID) :=
  ⟨⟨List.length_replicate 255 0,
    (userID_packet_boundary uMax).1 (List.length_replicate 255 0)⟩,
   ⟨List.length_replicate 256 0,
    (userID_packet_boundary uLong).2 (List.length_replicate 256 0)⟩⟩

/-- C5 counterexample: loading `Packet(U)` does not always yield a UserID
equal to `U`.  For `U = uMDC` (`EnableMDC` set) the load into the
zero-valued receiver succeeds but the result carries `EnableMDC = false`,
so it differs from `U`; for `U = uLongMDC` (256-byte identity) the
truncated length byte 0 makes the loaded identity empty, so even the `ID`
field differs. -/
theorem userID_roundtrip_claim_false :
    ((freshUserID.Load uMDC.Packet).2 = none ∧
     (freshUserID.Load uMDC.Packet).1 ≠ uMDC) ∧
    (freshUserID.Load uLongMDC.Packet).1.ID.length ≠ uLongMDC.ID.length := by
  refine ⟨⟨?_, ?_⟩, ?_⟩
  · decide
  · decide
  · have hlen : uLongMDC.ID.length = 256 := List.length_replicate 256 1
    have h205 : (0xc0 ||| 13 : Nat) = 205 := by decide
    have hpkt : uLongMDC.Packet = 205 :: 0 :: uLongMDC.ID := by
      simp only [UserID.Packet, hlen, h205]
    have hload : (freshUserID.Load uLongMDC.Packet).1.ID = [] := by
      rw [hpkt]
      have hand : (205 &&& 0xc0 : Nat) = 0xc0 := by decide
      simp [UserID.Load, readPacket, hand]
    rw [hload, hlen]
    simp

/-- C5 (amended): for every UserID `U` whose identity is at most 255 bytes
and every receiver `u0`, loading `Packet(U)` succeeds and stores exactly
`U.ID`, while `EnableMDC` keeps the receiver's prior value — so the
identity round-trips, and the result equals `U` exactly when
`u0.EnableMDC = U.EnableMDC` (the MDC flag is not encoded in the
packet). -/
theorem userID_load_packet_roundtrip (u0 U : UserID) (h : U.ID.length ≤ 255) :
    u0.Load U.Packet = ({ ID := U.ID, EnableMDC := u0.EnableMDC }, none) := by
  have hm : U.ID.length % 256 = U.ID.length := Nat.mod_eq_of_lt (by omega)
  have h205 : (0xc0 ||| 13 : Nat) = 205 := by decide
  have hand : (205 &&& 0xc0 : Nat) = 0xc0 := by decide
  simp [UserID.Load, readPacket, UserID.Packet, hm, h205, hand]

/-- Witness for the amended C5: a one-byte identity loaded into the
zero-valued receiver. -/
theorem userID_load_packet_roundtrip_witness :
    uMDC.ID.length ≤ 255 ∧
    freshUserID.Load uMDC.Packet
      = ({ ID := uMDC.ID, EnableMDC := freshUserID.EnableMDC }, none) :=
  ⟨by decide, userID_load_packet_roundtrip freshUserID uMDC (by decide)⟩

/-- C8: whenever the leading header byte of the stream is not `0xc0 | 13`,
or the packet is truncated, `Load` reports an error and leaves the
receiver unchanged — no identity is decoded, and a wrong tag is never
silently accepted. -/
theorem userID_load_rejects_bad_tag (u0 : UserID) (s : List Nat)
    (h : s.head? ≠ some (0xc0 ||| 13) ∨ truncatedStream s = true) :
    (u0.Load s).2 ≠ none ∧ (u0.Load s).1 = u0 := by
  rcases s with _ | ⟨a, _ | ⟨len, rest⟩⟩
  · simp [UserID.Load, readPacket]
  · simp [UserID.Load, readPacket]
  · by_cases hb : a &&& 0xc0 ≠ 0xc0
    · simp [UserID.Load, readPacket, hb]
    · by_cases htr : rest.length < len
      · simp [UserID.Load, readPacket, hb, htr]
      · rcases h with hh | ht
        · have h205 : (0xc0 ||| 13 : Nat) = 205 := by decide
          rw [h205] at hh
          have ha : a ≠ 205 := by
            intro e
            exact hh (by simp [e])
          simp [UserID.Load, readPacket, hb, htr, ha]
        · exfalso
          simp [truncatedStream] at ht
          omega

/-- Witness for C8: a one-byte stream whose header byte is 0x02. -/
theorem userID_load_rejects_bad_tag_witness :
    (([2] : List Nat).head? ≠ some (0xc0 ||| 13) ∨
      truncatedStream [2] = true) ∧
    ((freshUserID.Load [2]).2 ≠ none ∧ (freshUserID.Load [2]).1 = freshUserID) :=
  ⟨Or.inl (by decide),
   userID_load_rejects_bad_tag freshUserID [2] (Or.inl (by decide))⟩

end P2P
